import Mathlib

/-!
# Gazenot client library — verification of the request/response layer

Shallow embedding of `src/client.rs` (the `gazenot` crate's client for the
"Abyss" hosting service). HTTP transport, JSON codec and URL syntax
validation are external collaborators (spec §1); they are modelled as
follows:

* an HTTP status code is a `Nat`; `reqwest::StatusCode::is_success`
  (2xx check) is `isSuccessStatus`;
* serde parsing of a response body is external: `process_response` takes,
  alongside the body text, the parse outcome `Option (Response T)` that
  `serde_json::de::from_str` produced for that text (`none` = parse error);
* `url::Url` is modelled by its string; `Url::from_str` validity is
  external, so URL-building functions return the built string in `.ok`;
* a spawned tokio task is modelled by its eventual outcome
  `Except GazenotErrorInner T`; `join_all` consumes the `(desc, url, task)`
  triples in submission order exactly as the source loop does.

Error types (`GazenotError`, `GazenotErrorInner`) live in the crate's
`error.rs`, which is not part of the sources given; their shape is
modelled from their uses in `client.rs` and spec §7 (every failure carries
a human description, optionally the URL involved, and the underlying
cause). `SimpleError` is a newtype over `String` and is modelled as the
string itself.
-/

/-- The 2xx check `reqwest::StatusCode::is_success`. -/
def isSuccessStatus (status : Nat) : Bool :=
  200 ≤ status && status ≤ 299

/-- The `{success, result, errors}` response envelope (`Response<T>` in
`client.rs`). -/
structure Response (T : Type) where
  success : Bool
  result : Option T
  errors : Option (List String)
deriving Repr, DecidableEq

/-- The payload-free envelope (`BasicResponse` in `client.rs`). -/
structure BasicResponse where
  success : Bool
  errors : Option (List String)
deriving Repr, DecidableEq

/-- Modelled from the spec (§7) and the uses in `client.rs`: the inner
error cause. `ResponseError` carries the HTTP status and the list of
human-readable messages; `AuthKey` carries a static reason and the name of
the environment variable; `IsMocked` is the mock-rejection error;
`UrlError` and `InvalidHeaderValue` stand for the converted external
errors (`url::ParseError`, `http::InvalidHeaderValue`). -/
inductive GazenotErrorInner where
  | ResponseError (status : Nat) (errors : List String)
  | AuthKey (reason : String) (env_var_name : String)
  | IsMocked
  | UrlError (offending : String)
  | InvalidHeaderValue (value : String)
deriving Repr, DecidableEq

/-- Modelled from the spec (§7) and the constructors used in `client.rs`:
the outer error. `GazenotError::new(desc, cause)` has `url := none`;
`GazenotError::with_url(desc, url, cause)` has `url := some url`. -/
structure GazenotError where
  desc : String
  url : Option String
  cause : GazenotErrorInner
deriving Repr, DecidableEq

/-- The cohesion check of `process_response` (client.rs:649-650): the
`success` flag must agree with the status class and with payload
presence. -/
def has_cohesion (status : Nat) (success : Bool) (result_is_some : Bool) : Bool :=
  (success == isSuccessStatus status) && (success == result_is_some)

/-- The synthesized diagnostic message of `process_response`
(client.rs:652). The Rust code renders the status with `Display` for
`StatusCode` (code plus canonical reason); the model renders the numeric
code. No claim depends on the rendering. -/
def inconsistency_diagnostic (status : Nat) (success : Bool) (result_is_some : Bool) : String :=
  "server response inconsistently reported success -- status: " ++ toString status ++
    ", .success: " ++ toString success ++ ", .result.is_some(): " ++ toString result_is_some

/-- The synthesized diagnostic of `process_response_basic`
(client.rs:699-702). -/
def inconsistency_diagnostic_basic (status : Nat) (success : Bool) : String :=
  "server response inconsistently reported success -- status: " ++ toString status ++
    ", .success: " ++ toString success

/-- The error-message list built on the error path of `process_response`
(client.rs:649-666): server-supplied errors (or empty), then the
diagnostic when the three signals disagree. -/
def response_error_errors {T : Type} (status : Nat) (p : Response T) : List String :=
  let extra_error :=
    if !(has_cohesion status p.success p.result.isSome) then
      [inconsistency_diagnostic status p.success p.result.isSome]
    else []
  p.errors.getD [] ++ extra_error

/-- The error-message list built on the error path of
`process_response_basic` (client.rs:697-716). -/
def basic_response_error_errors (status : Nat) (p : BasicResponse) : List String :=
  let extra_error :=
    if !(p.success == isSuccessStatus status) then
      [inconsistency_diagnostic_basic status p.success]
    else []
  p.errors.getD [] ++ extra_error

/-- The classifier `process_response` (client.rs:618-667). `status` and `text` are the
response's status and body; `parsed` is serde's parse of `text` as the
envelope (`none` when parsing failed). -/
def process_response {T : Type} (status : Nat) (text : String)
    (parsed : Option (Response T)) : Except GazenotErrorInner T :=
  match parsed with
  | none =>
    let errors := if text = "" then [] else [text]
    .error (.ResponseError status errors)
  | some p =>
    if p.success && isSuccessStatus status then
      match p.result with
      | some result => .ok result
      | none => .error (.ResponseError status (response_error_errors status p))
    else
      .error (.ResponseError status (response_error_errors status p))

/-- The classifier `process_response_basic` (client.rs:669-717). -/
def process_response_basic (status : Nat) (text : String)
    (parsed : Option BasicResponse) : Except GazenotErrorInner Unit :=
  match parsed with
  | none =>
    let errors := if text = "" then [] else [text]
    .error (.ResponseError status errors)
  | some p =>
    if p.success && isSuccessStatus status then
      .ok ()
    else
      .error (.ResponseError status (basic_response_error_errors status p))

/-- C3 — For every status and parsed envelope, `process_response` returns the payload exactly when `success == true`, the status is a success code, and the `result` field is present; in every other case it returns an error carrying the status, whose message list includes every server-supplied error string. -/
theorem process_response_classification {T : Type} (status : Nat) (text : String)
    (p : Response T) :
    (∀ r : T, process_response status text (some p) = .ok r ↔
      (p.success = true ∧ isSuccessStatus status = true ∧ p.result = some r)) ∧
    (¬ (p.success = true ∧ isSuccessStatus status = true ∧ p.result.isSome = true) →
      ∃ msgs, process_response status text (some p) = .error (.ResponseError status msgs) ∧
        ∀ e ∈ p.errors.getD [], e ∈ msgs) := by
  have hmem : ∀ e ∈ p.errors.getD [], e ∈ response_error_errors status p := by
    intro e he
    unfold response_error_errors
    exact List.mem_append_left _ he
  constructor
  · intro r
    cases hs : p.success <;> cases hst : isSuccessStatus status <;>
      cases hr : p.result <;>
      simp [process_response, hs, hst, hr]
  · intro hno
    cases hs : p.success <;> cases hst : isSuccessStatus status <;> cases hr : p.result
    case true.true.some v => exact absurd ⟨hs, hst, by simp [hr]⟩ hno
    all_goals exact ⟨response_error_errors status p,
      by simp [process_response, hs, hst, hr, response_error_errors], hmem⟩

/-- C3 witness: at status 200 with `success:true` and a present result the
payload is returned; at status 500 with `success:false` the server error
string is among the messages. -/
theorem process_response_classification_witness :
    process_response 200 "body" (some ⟨true, some 7, none⟩) = .ok 7 ∧
    ∃ msgs, process_response (T := Nat) 500 "body" (some ⟨false, none, some ["srv boom"]⟩) =
        .error (.ResponseError 500 msgs) ∧ "srv boom" ∈ msgs := by
  constructor
  · exact ((process_response_classification 200 "body" ⟨true, some 7, none⟩).1 7).2
      ⟨rfl, by decide, rfl⟩
  · obtain ⟨msgs, hm, hmem⟩ :=
      (process_response_classification (T := Nat) 500 "body" ⟨false, none, some ["srv boom"]⟩).2
        (by simp)
    exact ⟨msgs, hm, hmem ("srv boom") (by simp)⟩

/-- C2 counterexample — `{"success":false}` with status 404 is a coherent
failure (all three signals agree on failure), so `process_response`
returns an error whose message list is empty: it contains no synthesized
consistency diagnostic, contrary to the claim that every
`{"success":false,...}` body yields one. -/
theorem process_response_coherent_failure_no_diagnostic :
    process_response (T := Unit) 404 "\x7b\"success\":false\x7d"
      (some ⟨false, none, none⟩) = .error (.ResponseError 404 []) := by
  rfl

/-- C2 (amended) — For every response body parsing as the envelope: given
`{"success":false,...}` with a 2xx status, or a 2xx status with
`{"success":true}` but a missing result, `process_response` returns an
error whose message list is the server-supplied error strings followed by
the synthesized consistency diagnostic. -/
theorem process_response_inconsistency {T : Type} (status : Nat) (text : String)
    (p : Response T)
    (h : (p.success = false ∧ isSuccessStatus status = true) ∨
         (p.success = true ∧ isSuccessStatus status = true ∧ p.result = none)) :
    process_response status text (some p) =
      .error (.ResponseError status
        (p.errors.getD [] ++ [inconsistency_diagnostic status p.success p.result.isSome])) := by
  rcases h with ⟨h1, h2⟩ | ⟨h1, h2, h3⟩
  · simp [process_response, response_error_errors, has_cohesion, h1, h2]
  · simp [process_response, response_error_errors, has_cohesion, h1, h2, h3]

/-- C2 witness: `{"success":false,"errors":["srv down"]}` with status 200
produces the server string followed by the diagnostic. -/
theorem process_response_inconsistency_witness :
    process_response (T := Unit) 200 "\x7b\"success\":false,\"errors\":[\"srv down\"]\x7d"
      (some ⟨false, none, some ["srv down"]⟩) =
      .error (.ResponseError 200 (["srv down"] ++ [inconsistency_diagnostic 200 false false])) :=
  process_response_inconsistency 200 _ ⟨false, none, some ["srv down"]⟩
    (Or.inl ⟨rfl, by decide⟩)

/-- C4 — For every response whose body does not parse as the JSON
envelope: a non-empty body yields an error whose message list is exactly
the raw body text; an empty body yields an error with an empty message
list; both carry the raw HTTP status, and both the typed and the basic
classifier behave this way. -/
theorem process_response_unparsed {T : Type} (status : Nat) (text : String) :
    (text ≠ "" →
      process_response (T := T) status text none = .error (.ResponseError status [text]) ∧
      process_response_basic status text none = .error (.ResponseError status [text])) ∧
    (process_response (T := T) status ("") none = .error (.ResponseError status []) ∧
      process_response_basic status ("") none = .error (.ResponseError status [])) := by
  refine ⟨fun h => ⟨?_, ?_⟩, ?_, ?_⟩ <;> simp [process_response, process_response_basic, *]

/-- C4 witness: a plain-text 500 body "oops" becomes the single message;
an empty body becomes an empty message list. -/
theorem process_response_unparsed_witness :
    (process_response (T := Unit) 500 "oops" none = .error (.ResponseError 500 ["oops"]) ∧
      process_response_basic 500 "oops" none = .error (.ResponseError 500 ["oops"])) ∧
    (process_response (T := Unit) 502 "" none = .error (.ResponseError 502 []) ∧
      process_response_basic 502 "" none = .error (.ResponseError 502 [])) :=
  ⟨(process_response_unparsed (T := Unit) 500 "oops").1 (by decide),
    (process_response_unparsed (T := Unit) 502 "").2⟩

/-! ## Client state, entities and URL derivation -/

/-- The client state (`GazenotInner` in `client.rs`). The reqwest
`Client` handle is an external collaborator and is not part of the model;
a header is a name/value string pair. -/
structure Gazenot where
  api_server : String
  hosting_server : String
  auth_headers : List (String × String)
  owner : String
  source_host : String
deriving Repr, DecidableEq

/-- The `ArtifactSet` entity (declared in the crate root, used throughout
`client.rs`): the server-assigned identity of a package's hosting bucket,
with optional server-provided URL overrides. The `mock` field is modelled
from the spec: an ArtifactSet may be a mock sentinel which must be
rejected before any mutating network call"; `is_mock()` is its test (the
defining module is not among the given sources). -/
structure ArtifactSet where
  package : String
  public_id : String
  set_download_url : Option String
  upload_url : Option String
  release_url : Option String
  announce_url : Option String
  mock : Bool
deriving Repr, DecidableEq

/-- The test `ArtifactSet::is_mock`, modelled from the spec (see `ArtifactSet.mock`). -/
def ArtifactSet.is_mock (set : ArtifactSet) : Bool :=
  set.mock

/-- The `ReleaseKey` input (crate root): caller-supplied descriptor of a release. -/
structure ReleaseKey where
  tag : String
  version : String
  is_prerelease : Bool
deriving Repr, DecidableEq

/-- The `Release` output (crate root): result of a successful create_release. -/
structure Release where
  package : String
  tag : String
  release_download_url : Option String
  announce_url : Option String
deriving Repr, DecidableEq

/-- The `AnnouncementKey` input (crate root): free-text announcement body. -/
structure AnnouncementKey where
  body : String
deriving Repr, DecidableEq

/-- The request element `AnnounceReleaseKey` (client.rs:90-94). -/
structure AnnounceReleaseKey where
  package : String
  tag : String
deriving Repr, DecidableEq

/-- The request body `AnnounceReleaseRequest` (client.rs:96-100). -/
structure AnnounceReleaseRequest where
  releases : List AnnounceReleaseKey
  body : String
deriving Repr, DecidableEq

/-- The endpoint builder `Gazenot::create_artifact_set_url` (client.rs:487-496). URL syntax
validation (`Url::from_str`) is external; the model returns the built
string. -/
def Gazenot.create_artifact_set_url (c : Gazenot) (package : String) :
    Except GazenotErrorInner String :=
  .ok ("https://" ++ c.api_server ++ "/" ++ c.source_host ++ "/" ++ c.owner ++ "/" ++
    package ++ "/artifacts")

/-- The endpoint builder `Gazenot::upload_artifact_set_url` (client.rs:513-526): the
override-or-derive base, with the filename appended as a trailing path
segment. -/
def Gazenot.upload_artifact_set_url (c : Gazenot) (set : ArtifactSet) (filename : String) :
    Except GazenotErrorInner String :=
  let base := set.upload_url.getD
    ("https://" ++ c.api_server ++ "/" ++ c.source_host ++ "/" ++ c.owner ++ "/" ++
      set.package ++ "/artifacts/" ++ set.public_id ++ "/upload")
  .ok (base ++ "/" ++ filename)

/-- The endpoint builder `Gazenot::download_artifact_set_url` (client.rs:498-511). -/
def Gazenot.download_artifact_set_url (c : Gazenot) (set : ArtifactSet) (filename : String) :
    Except GazenotErrorInner String :=
  let base := set.set_download_url.getD
    ("https://" ++ c.owner ++ "." ++ c.hosting_server ++ "/" ++ set.package ++ "/" ++
      set.public_id)
  .ok (base ++ "/" ++ filename)

/-- The endpoint builder `Gazenot::create_release_url` (client.rs:528-539). -/
def Gazenot.create_release_url (c : Gazenot) (set : ArtifactSet) :
    Except GazenotErrorInner String :=
  let url := set.release_url.getD
    ("https://" ++ c.api_server ++ "/" ++ c.source_host ++ "/" ++ c.owner ++ "/" ++
      set.package ++ "/releases")
  .ok url

/-- The endpoint builder `Gazenot::create_announcement_url` (client.rs:541-551). -/
def Gazenot.create_announcement_url (c : Gazenot) (release : Release) :
    Except GazenotErrorInner String :=
  let url := release.announce_url.getD
    ("https://" ++ c.api_server ++ "/" ++ c.source_host ++ "/" ++ c.owner ++ "/announcements")
  .ok url

/-- The endpoint builder `Gazenot::list_releases_url` (client.rs:553-563), embedded exactly as
written: the format string on line 560 is
`https://{server}/{source_host}{owner}/{package}/releases`, with no `/`
between `source_host` and `owner`. -/
def Gazenot.list_releases_url (c : Gazenot) (package : String) :
    Except GazenotErrorInner String :=
  .ok ("https://" ++ c.api_server ++ "/" ++ c.source_host ++ c.owner ++ "/" ++
    package ++ "/releases")

/-- The list-releases endpoint the spec documents (spec §4.1:
`list-releases(package) → {api_server}/{source_host}/{owner}/{package}/releases`)
and the code's own comment on client.rs:554 documents
(`GET /:sourcehost/:owner/:projects/releases`): written from those words,
for comparison with `Gazenot.list_releases_url`. -/
def list_releases_url_spec (c : Gazenot) (package : String) : String :=
  "https://" ++ c.api_server ++ "/" ++ c.source_host ++ "/" ++ c.owner ++ "/" ++
    package ++ "/releases"

/-- C1 — At the concrete identity (source_host "github", owner
"axodotdev", package "cargo-dist"), `list_releases_url` produces
`https://axo-abyss.fly.dev/githubaxodotdev/cargo-dist/releases`: the
separator between source_host and owner is missing, so the result differs
from the documented template. -/
theorem list_releases_url_missing_separator :
    Gazenot.list_releases_url
        ⟨"axo-abyss.fly.dev", "artifacts.axodotdev.host", [], "axodotdev", "github"⟩
        "cargo-dist" =
      .ok ("https://axo-abyss.fly.dev/githubaxodotdev/cargo-dist/releases") ∧
    list_releases_url_spec
        ⟨"axo-abyss.fly.dev", "artifacts.axodotdev.host", [], "axodotdev", "github"⟩
        "cargo-dist" =
      "https://axo-abyss.fly.dev/github/axodotdev/cargo-dist/releases" ∧
    "https://axo-abyss.fly.dev/githubaxodotdev/cargo-dist/releases" ≠
      "https://axo-abyss.fly.dev/github/axodotdev/cargo-dist/releases" := by
  refine ⟨rfl, rfl, ?_⟩
  decide

/-- C6 — `upload_artifact_set_url` returns the override base with only
the filename appended when `upload_url` is set — independent of every
identity field of the client — and otherwise the default template
`https://{api_server}/{source_host}/{owner}/{package}/artifacts/{public_id}/upload`
with the filename appended. -/
theorem upload_artifact_set_url_override_or_default (c c' : Gazenot)
    (set : ArtifactSet) (filename u : String) :
    (set.upload_url = some u →
      c.upload_artifact_set_url set filename = .ok (u ++ "/" ++ filename) ∧
      c.upload_artifact_set_url set filename = c'.upload_artifact_set_url set filename) ∧
    (set.upload_url = none →
      c.upload_artifact_set_url set filename =
        .ok ("https://" ++ c.api_server ++ "/" ++ c.source_host ++ "/" ++ c.owner ++ "/" ++
          set.package ++ "/artifacts/" ++ set.public_id ++ "/upload" ++ "/" ++ filename)) := by
  constructor
  · intro h
    constructor <;> simp [Gazenot.upload_artifact_set_url, h]
  · intro h
    simp [Gazenot.upload_artifact_set_url, h]

/-- C6 witness: with an override the default identity fields do not
appear; without one the default template is used. -/
theorem upload_artifact_set_url_override_witness :
    Gazenot.upload_artifact_set_url
        ⟨"api.example", "dl.example", [], "own", "srchost"⟩
        ⟨"pkg", "id123", none, some ("https://cdn.example/bucket"), none, none, false⟩
        "file.tar" = .ok ("https://cdn.example/bucket/file.tar") ∧
    Gazenot.upload_artifact_set_url
        ⟨"api.example", "dl.example", [], "own", "srchost"⟩
        ⟨"pkg", "id123", none, none, none, none, false⟩
        "file.tar" =
      .ok ("https://api.example/srchost/own/pkg/artifacts/id123/upload/file.tar") := by
  constructor
  · exact ((upload_artifact_set_url_override_or_default
      ⟨"api.example", "dl.example", [], "own", "srchost"⟩
      ⟨"api.example", "dl.example", [], "own", "srchost"⟩
      ⟨"pkg", "id123", none, some ("https://cdn.example/bucket"), none, none, false⟩
      "file.tar" "https://cdn.example/bucket").1 rfl).1
  · exact (upload_artifact_set_url_override_or_default
      ⟨"api.example", "dl.example", [], "own", "srchost"⟩
      ⟨"api.example", "dl.example", [], "own", "srchost"⟩
      ⟨"pkg", "id123", none, none, none, none, false⟩
      "file.tar" "").2 rfl

/-! ## Auth provider and client construction -/

/-- Validity of a character in an HTTP header value, as checked by
`http::HeaderValue::from_str`: on each byte `b` it requires
`b >= 32 && b != 127 || b == 9`. Every byte of the UTF-8 encoding of a
character with code ≥ 128 is ≥ 128, hence accepted, so byte-level
validity of a string is equivalent to this per-character check. -/
def isValidHeaderChar (c : Char) : Bool :=
  (32 ≤ c.toNat && c.toNat ≠ 127) || c.toNat == 9

/-- A string is a valid HTTP header value when every character is. -/
def isValidHeaderValue (s : String) : Bool :=
  s.toList.all isValidHeaderChar

/-- The free function `auth_headers` (client.rs:580-616); named
`build_auth_headers` here because `auth_headers` is the client's field.
The process environment is an external collaborator: `env` is the value
of the `AXO_RELEASES_TOKEN` environment variable (`none` when unset),
the sole variable the function reads. -/
def build_auth_headers (source : String) (owner : String) (env : Option String) :
    Except GazenotErrorInner (List (String × String)) :=
  match env with
  | none => .error (.AuthKey ("could not load env var") ("AXO_RELEASES_TOKEN"))
  | some auth_key =>
    if auth_key = "" then
      .error (.AuthKey ("no value in env var") ("AXO_RELEASES_TOKEN"))
    else if !isValidHeaderValue ("Bearer " ++ auth_key) then
      .error (.AuthKey ("had invalid characters for an http header") ("AXO_RELEASES_TOKEN"))
    else
      let id := source ++ "/" ++ owner
      if !isValidHeaderValue id then
        .error (.InvalidHeaderValue id)
      else
        .ok [("authorization", "Bearer " ++ auth_key), ("x-axo-identifier", id)]

/-- The constructor `Gazenot::new_with_auth_headers` (client.rs:152-175). Building the
reqwest transport handle is external and does not depend on the inputs;
its failure mode is not modelled, so construction yields the client. -/
def Gazenot.new_with_auth_headers (source_host : String) (owner : String)
    (headers : List (String × String)) : Gazenot :=
  { api_server := "axo-abyss.fly.dev"
    hosting_server := "artifacts.axodotdev.host"
    auth_headers := headers
    owner := owner
    source_host := source_host }

/-- The constructor `Gazenot::new` (client.rs:127-135): authenticated construction.
`env` is the `AXO_RELEASES_TOKEN` environment variable's value. -/
def Gazenot.new (source_host : String) (owner : String) (env : Option String) :
    Except GazenotError Gazenot :=
  match build_auth_headers source_host owner env with
  | .error e => .error ⟨"initializing Abyss authentication", none, e⟩
  | .ok headers => .ok (Gazenot.new_with_auth_headers source_host owner headers)

/-- The constructor `Gazenot::new_unauthed` (client.rs:143-150): unauthenticated
construction starts from `HeaderMap::new()` and never reads the
environment (the model accordingly takes no environment argument). -/
def Gazenot.new_unauthed (source_host : String) (owner : String) : Gazenot :=
  Gazenot.new_with_auth_headers source_host owner []

/-- C7 — Authenticated construction fails with the typed `AuthKey`
construction error — with its distinct reason — when the credential
environment variable is absent, empty, or invalid as an HTTP header
value; no network is involved (construction is a pure function of the
inputs). Unauthenticated construction takes no environment input and
yields an empty header set. -/
theorem construction_credential_errors (source_host owner k : String) :
    (Gazenot.new source_host owner none =
      .error ⟨"initializing Abyss authentication", none,
        .AuthKey ("could not load env var") ("AXO_RELEASES_TOKEN")⟩) ∧
    (Gazenot.new source_host owner (some ("")) =
      .error ⟨"initializing Abyss authentication", none,
        .AuthKey ("no value in env var") ("AXO_RELEASES_TOKEN")⟩) ∧
    (k ≠ "" → isValidHeaderValue ("Bearer " ++ k) = false →
      Gazenot.new source_host owner (some k) =
        .error ⟨"initializing Abyss authentication", none,
          .AuthKey ("had invalid characters for an http header") ("AXO_RELEASES_TOKEN")⟩) ∧
    (Gazenot.new_unauthed source_host owner).auth_headers = [] := by
  refine ⟨rfl, rfl, fun hk hv => ?_, rfl⟩
  simp [Gazenot.new, build_auth_headers, hk, hv]

/-- C7 witness: a token containing a newline is rejected for invalid
header characters. -/
theorem construction_credential_errors_witness :
    "tok\ntok" ≠ "" ∧ isValidHeaderValue ("Bearer " ++ "tok\ntok") = false ∧
    Gazenot.new ("github") ("axodotdev") (some ("tok\ntok")) =
      .error ⟨"initializing Abyss authentication", none,
        .AuthKey ("had invalid characters for an http header") ("AXO_RELEASES_TOKEN")⟩ :=
  ⟨by decide, by decide,
    (construction_credential_errors ("github") ("axodotdev") ("tok\ntok")).2.2.1
      (by decide) (by decide)⟩

/-! ## The ordered join of spawned tasks -/

/-- The ordered join `join_all` (client.rs:566-578). A spawned task is modelled by its
eventual outcome; the loop consumes the `(desc, url, task)` triples in
submission order, so completion order cannot influence the result. Both
a task-level failure and a task's inner error are wrapped with
`GazenotError::with_url(desc, url, e)`; the model carries the inner
error. -/
def join_all {T : Type} (queries : List (String × String × Except GazenotErrorInner T)) :
    Except GazenotError (List T) :=
  match queries with
  | [] => .ok []
  | (desc, url, q) :: rest =>
    match q with
    | .error e => .error ⟨desc, some url, e⟩
    | .ok r =>
      match join_all rest with
      | .error e => .error e
      | .ok results => .ok (r :: results)

/-- The earliest failing query in submission order, with its description
and URL. -/
def first_failure {T : Type} (queries : List (String × String × Except GazenotErrorInner T)) :
    Option (String × String × GazenotErrorInner) :=
  match queries with
  | [] => none
  | (desc, url, q) :: rest =>
    match q with
    | .error e => some (desc, url, e)
    | .ok _ => first_failure rest

/-- The successful outcomes, in submission order. -/
def ok_values {T : Type} (queries : List (String × String × Except GazenotErrorInner T)) :
    List T :=
  queries.filterMap (fun q => q.2.2.toOption)

/-- C5 — `join_all` returns, when no query failed, the successes in the
same order as the input collection; otherwise it returns the failure of
the earliest failing query in submission order, wrapped with that query's
description string and target URL. -/
theorem join_all_ordered {T : Type}
    (queries : List (String × String × Except GazenotErrorInner T)) :
    (first_failure queries = none → join_all queries = .ok (ok_values queries)) ∧
    (∀ desc url e, first_failure queries = some (desc, url, e) →
      join_all queries = .error ⟨desc, some url, e⟩) := by
  induction queries with
  | nil => exact ⟨fun _ => rfl, fun desc url e h => by simp [first_failure] at h⟩
  | cons q rest ih =>
    obtain ⟨desc, url, outcome⟩ := q
    cases outcome with
    | error e =>
      refine ⟨fun h => ?_, fun d u e' h => ?_⟩
      · simp [first_failure] at h
      · simp only [first_failure, Option.some.injEq, Prod.mk.injEq] at h
        obtain ⟨h1, h2, h3⟩ := h
        subst h1; subst h2; subst h3
        rfl
    | ok r =>
      refine ⟨fun h => ?_, fun d u e' h => ?_⟩
      · simp only [first_failure] at h
        simp [join_all, ih.1 h, ok_values, first_failure, Except.toOption]
      · simp only [first_failure] at h
        simp [join_all, ih.2 d u e' h]

/-- C5 witness: a fully successful batch keeps input order; a batch whose
second query failed reports that query's error wrapped with its
description and URL. -/
theorem join_all_ordered_witness :
    join_all [("d1", "u1", .ok 10), ("d2", "u2", .ok 20)] = .ok [10, 20] ∧
    join_all [("d1", "u1", .ok (10 : Nat)), ("d2", "u2", .error .IsMocked),
        ("d3", "u3", .ok 30)] =
      .error ⟨"d2", some ("u2"), .IsMocked⟩ :=
  ⟨(join_all_ordered [("d1", "u1", .ok 10), ("d2", "u2", .ok 20)]).1 rfl,
    (join_all_ordered [("d1", "u1", .ok (10 : Nat)), ("d2", "u2", .error .IsMocked),
        ("d3", "u3", .ok 30)]).2 ("d2") ("u2") .IsMocked rfl⟩

/-! ## The spawn phases of the bulk operations -/

/-- The guard `reject_mock` (client.rs:719-725). -/
def reject_mock (artifact_set : ArtifactSet) : Except GazenotErrorInner Unit :=
  if artifact_set.is_mock then .error .IsMocked else .ok ()

/-- Split a character list at every `/` (helper for `file_name`;
structurally recursive so that concrete paths evaluate). -/
def split_slash (cs : List Char) (acc : List Char) : List String :=
  match cs with
  | [] => [String.mk acc.reverse]
  | c :: rest =>
    if c = '/' then String.mk acc.reverse :: split_slash rest []
    else split_slash rest (c :: acc)

/-- The path helper `camino::Utf8Path::file_name` (mirrors `std::path::Path::file_name`):
the final component of the path, when it is a normal component — `none`
for paths ending in `..`, for a bare root, or for the empty path. Windows
path prefixes are out of scope. -/
def file_name (path : String) : Option String :=
  let parts := (split_slash path.toList []).filter (fun s => s ≠ "" && s ≠ ".")
  match parts.getLast? with
  | none => none
  | some s => if s = ".." then none else some s

/-- The description string `upload_files` computes for one file
(client.rs:255-258). -/
def upload_desc (c : Gazenot) (set : ArtifactSet) (filename : String) : String :=
  "upload " ++ filename ++ " to hosting for " ++ c.source_host ++ "/" ++ c.owner ++ "/" ++
    set.package

/-- The spawn loop of `upload_files` (client.rs:250-269) over the
flattened `(set, file)` pairs in iteration order. The returned value is
`none` when the loop panics (the `file.file_name().unwrap()` on
client.rs:254 with a path lacking a file name); otherwise it yields the
`(desc, url, file)` network tasks actually spawned before the loop ended,
paired with the short-circuiting error if one was returned. -/
def upload_files_loop (c : Gazenot) (pending : List (ArtifactSet × String)) :
    Option (List (String × String × String) × Option GazenotError) :=
  match pending with
  | [] => some ([], none)
  | (set, file) :: rest =>
    match file_name file with
    | none => none
    | some filename =>
      let desc := upload_desc c set filename
      match reject_mock set with
      | .error e => some ([], some ⟨desc, none, e⟩)
      | .ok _ =>
        match c.upload_artifact_set_url set filename with
        | .error e => some ([], some ⟨desc, none, e⟩)
        | .ok url =>
          match upload_files_loop c rest with
          | none => none
          | some (queries, err) => some ((desc, url, file) :: queries, err)

/-- The spawn phase of `upload_files` (client.rs:245-275): the input
pairs each ArtifactSet with its files; iteration is over sets in order,
then over each set's files in order. -/
def upload_files_spawn (c : Gazenot) (files : List (ArtifactSet × List String)) :
    Option (List (String × String × String) × Option GazenotError) :=
  upload_files_loop c
    ((files.map (fun p => p.2.map (fun f => (p.1, f)))).flatten)

/-- The description string `create_releases` computes for one item
(client.rs:315-318). -/
def release_desc (c : Gazenot) (set : ArtifactSet) : String :=
  "create release for " ++ c.source_host ++ "/" ++ c.owner ++ "/" ++ set.package

/-- The spawn loop of `create_releases` (client.rs:303-336): for each
`(set, key)` pair in order, compute the description, reject mocks, build
the URL, and spawn the `create_release` task (modelled by its captured
arguments). The first failure short-circuits with the queries spawned so
far dropped from the return value, exactly as the `?` in the source
loop. -/
def create_releases_loop (c : Gazenot) (pending : List (ArtifactSet × ReleaseKey)) :
    List (String × String × (String × String × Option String × ReleaseKey)) ×
      Option GazenotError :=
  match pending with
  | [] => ([], none)
  | (set, key) :: rest =>
    let desc := release_desc c set
    match reject_mock set with
    | .error e => ([], some ⟨desc, none, e⟩)
    | .ok _ =>
      match c.create_release_url set with
      | .error e => ([], some ⟨desc, none, e⟩)
      | .ok url =>
        let (queries, err) := create_releases_loop c rest
        ((desc, url, (set.public_id, set.package, set.announce_url, key)) :: queries, err)

/-- The description string `create_announcements` computes
(client.rs:385-388). -/
def announce_desc (c : Gazenot) (r : Release) : String :=
  "create announcement for " ++ c.source_host ++ "/" ++ c.owner ++ "/" ++ r.tag

/-- The spawn phase of `create_announcements` (client.rs:375-419): an
empty collection returns success immediately; otherwise the single
announcement task is built from the first release's URL and carries every
release's `(package, tag)` pair. -/
def create_announcements_spawn (c : Gazenot) (releases : List Release)
    (announcement : AnnouncementKey) :
    Except GazenotError (List (String × String × AnnounceReleaseRequest)) :=
  match releases with
  | [] => .ok []
  | some_release :: _ =>
    let desc := announce_desc c some_release
    match c.create_announcement_url some_release with
    | .error e => .error ⟨desc, none, e⟩
    | .ok url =>
      .ok [(desc, url,
        { releases := releases.map (fun r => ⟨r.package, r.tag⟩)
          body := announcement.body })]

/-- A prefix of the upload loop that spawned `queries` without failing
extends: processing continues into the remainder with its spawned tasks
appended after `queries`. -/
theorem upload_files_loop_ok_append (c : Gazenot) (xs ys : List (ArtifactSet × String))
    (queries : List (String × String × String))
    (h : upload_files_loop c xs = some (queries, none)) :
    upload_files_loop c (xs ++ ys) =
      (upload_files_loop c ys).map (fun r => (queries ++ r.1, r.2)) := by
  induction xs generalizing queries with
  | nil =>
    simp only [upload_files_loop, Option.some.injEq, Prod.mk.injEq] at h
    obtain ⟨h1, -⟩ := h
    subst h1
    simp only [List.nil_append, List.nil_append]
    cases upload_files_loop c ys with
    | none => rfl
    | some r => simp
  | cons x xs' ih =>
    obtain ⟨set, file⟩ := x
    rw [List.cons_append]
    simp only [upload_files_loop] at h ⊢
    cases hfn : file_name file with
    | none => simp [hfn] at h
    | some filename =>
      simp only [hfn] at h ⊢
      cases hrm : reject_mock set with
      | error e => simp [hrm] at h
      | ok u =>
        simp only [hrm] at h ⊢
        simp only [Gazenot.upload_artifact_set_url] at h ⊢
        cases hrest : upload_files_loop c xs' with
        | none => simp [hrest] at h
        | some r =>
          obtain ⟨qs', err'⟩ := r
          simp only [hrest, Option.some.injEq, Prod.mk.injEq] at h
          obtain ⟨h1, h2⟩ := h
          rw [ih qs' (by rw [hrest, h2])]
          rw [← h1]
          cases upload_files_loop c ys with
          | none => rfl
          | some r' => simp

/-- A prefix of the create-releases loop that spawned `queries` without
failing extends in the same way. -/
theorem create_releases_loop_ok_append (c : Gazenot)
    (xs ys : List (ArtifactSet × ReleaseKey))
    (queries : List (String × String × (String × String × Option String × ReleaseKey)))
    (h : create_releases_loop c xs = (queries, none)) :
    create_releases_loop c (xs ++ ys) =
      (queries ++ (create_releases_loop c ys).1, (create_releases_loop c ys).2) := by
  induction xs generalizing queries with
  | nil =>
    simp only [create_releases_loop, Prod.mk.injEq] at h
    obtain ⟨h1, -⟩ := h
    subst h1
    simp
  | cons x xs' ih =>
    obtain ⟨set, key⟩ := x
    rw [List.cons_append]
    simp only [create_releases_loop] at h ⊢
    cases hrm : reject_mock set with
    | error e => simp [hrm] at h
    | ok u =>
      simp only [hrm] at h ⊢
      simp only [Gazenot.create_release_url] at h ⊢
      cases hrest : create_releases_loop c xs' with
      | mk qs' err' =>
        simp only [hrest, Prod.mk.injEq] at h
        obtain ⟨h1, h2⟩ := h
        rw [ih qs' (by rw [hrest, h2])]
        rw [← h1]
        simp

/-- C8 counterexample — an upload item whose ArtifactSet is the mock
sentinel but whose path `foo/..` lacks a file-name component does not
fail with the mock-rejection error: the filename unwrap on client.rs:254
runs before the mock check on client.rs:259, so `upload_files` panics
there (the model's `none`) and no mock-rejection error is ever built. -/
theorem mock_item_panics_before_mock_check :
    upload_files_spawn ⟨"api.example", "dl.example", [], "own", "src"⟩
      [(⟨"pkg", "id1", none, none, none, none, true⟩, ["foo/.."])] = none := by
  rfl

/-- C8 (amended) — In both `upload_files` and `create_releases`, an item
whose ArtifactSet is the mock sentinel fails with the dedicated
mock-rejection error, wrapped with that item's description, provided the
loop reaches the item without an earlier failure and — for
`upload_files` — the item's path has a final file-name component (with a
mock item whose path lacks one, the code instead panics in the filename
unwrap, before the mock check). The spawn phase stops at the mock item
having spawned only the earlier items' network tasks, so zero network
calls are issued for the mock item (or for anything after it). -/
theorem mock_rejected_before_spawn (c : Gazenot)
    (pre : List (ArtifactSet × String)) (set : ArtifactSet) (file fn : String)
    (rest : List (ArtifactSet × String)) (queries : List (String × String × String))
    (hpre : upload_files_loop c pre = some (queries, none))
    (hmock : set.is_mock = true) (hfn : file_name file = some fn)
    (pre2 : List (ArtifactSet × ReleaseKey)) (set2 : ArtifactSet) (key : ReleaseKey)
    (rest2 : List (ArtifactSet × ReleaseKey))
    (queries2 : List (String × String × (String × String × Option String × ReleaseKey)))
    (hpre2 : create_releases_loop c pre2 = (queries2, none))
    (hmock2 : set2.is_mock = true) :
    upload_files_loop c (pre ++ (set, file) :: rest) =
      some (queries, some ⟨upload_desc c set fn, none, .IsMocked⟩) ∧
    create_releases_loop c (pre2 ++ (set2, key) :: rest2) =
      (queries2, some ⟨release_desc c set2, none, .IsMocked⟩) := by
  constructor
  · rw [upload_files_loop_ok_append c pre _ queries hpre]
    simp [upload_files_loop, hfn, reject_mock, hmock]
  · rw [create_releases_loop_ok_append c pre2 _ queries2 hpre2]
    simp [create_releases_loop, reject_mock, hmock2]

/-- C8 witness: with one healthy item ahead of it, a mock item stops the
batch with the mock-rejection error; only the healthy item's task was
spawned. -/
theorem mock_rejected_before_spawn_witness :
    upload_files_loop
        ⟨"api.example", "dl.example", [], "own", "src"⟩
        [(⟨"pkg", "id1", none, none, none, none, false⟩, "dir/a.txt"),
         (⟨"pkg2", "id2", none, none, none, none, true⟩, "dir/b.txt")] =
      some ([(upload_desc ⟨"api.example", "dl.example", [], "own", "src"⟩
                ⟨"pkg", "id1", none, none, none, none, false⟩ "a.txt",
              "https://api.example/src/own/pkg/artifacts/id1/upload/a.txt", "dir/a.txt")],
        some ⟨upload_desc ⟨"api.example", "dl.example", [], "own", "src"⟩
                ⟨"pkg2", "id2", none, none, none, none, true⟩ "b.txt", none, .IsMocked⟩) ∧
    create_releases_loop ⟨"api.example", "dl.example", [], "own", "src"⟩
        [(⟨"pkg2", "id2", none, none, none, none, true⟩, ⟨"v1", "1.0.0", false⟩)] =
      ([], some ⟨release_desc ⟨"api.example", "dl.example", [], "own", "src"⟩
              ⟨"pkg2", "id2", none, none, none, none, true⟩, none, .IsMocked⟩) := by
  have h := mock_rejected_before_spawn
    ⟨"api.example", "dl.example", [], "own", "src"⟩
    [(⟨"pkg", "id1", none, none, none, none, false⟩, "dir/a.txt")]
    ⟨"pkg2", "id2", none, none, none, none, true⟩ "dir/b.txt" "b.txt" []
    [(upload_desc ⟨"api.example", "dl.example", [], "own", "src"⟩
        ⟨"pkg", "id1", none, none, none, none, false⟩ "a.txt",
      "https://api.example/src/own/pkg/artifacts/id1/upload/a.txt", "dir/a.txt")]
    (by rfl) (by rfl) (by rfl)
    [] ⟨"pkg2", "id2", none, none, none, none, true⟩ ⟨"v1", "1.0.0", false⟩ [] []
    (by rfl) (by rfl)
  exact h

/-- C9 counterexample — `upload_files` called with the path `foo/..`,
which has no final file-name component, panics in the
`file.file_name().unwrap()` on client.rs:254 (the model's `none`)
instead of returning a typed error. -/
theorem upload_files_panics_on_dotdot_path :
    upload_files_spawn ⟨"api.example", "dl.example", [], "own", "src"⟩
      [(⟨"pkg", "id1", none, none, none, none, false⟩, ["foo/.."])] = none := by
  rfl

/-- C9 (amended) — For every input collection in which every path has a
final file-name component, the spawn phase of `upload_files` never
panics: it returns an outcome in which every failure is a typed
`GazenotError` value. (With a path lacking a file-name component — e.g.
one ending in `..` — the code panics in the filename unwrap instead.) -/
theorem upload_files_no_panic (c : Gazenot) (files : List (ArtifactSet × List String))
    (h : ∀ p ∈ files, ∀ f ∈ p.2, (file_name f).isSome = true) :
    (upload_files_spawn c files).isSome = true := by
  have loop : ∀ pending : List (ArtifactSet × String),
      (∀ x ∈ pending, (file_name x.2).isSome = true) →
      (upload_files_loop c pending).isSome = true := by
    intro pending hp
    induction pending with
    | nil => rfl
    | cons x rest ih =>
      obtain ⟨set, file⟩ := x
      have hx := hp (set, file) (by simp)
      simp only at hx
      cases hfn : file_name file with
      | none => rw [hfn] at hx; simp at hx
      | some filename =>
        have hrest := ih (fun y hy => hp y (List.mem_cons_of_mem _ hy))
        simp only [upload_files_loop, hfn]
        cases hrm : reject_mock set with
        | error e => simp
        | ok u =>
          simp only [Gazenot.upload_artifact_set_url]
          cases hr : upload_files_loop c rest with
          | none => rw [hr] at hrest; simp at hrest
          | some r => simp
  apply loop
  intro x hx
  simp only [List.mem_flatten, List.mem_map] at hx
  obtain ⟨M, ⟨p, hp, hM⟩, hxM⟩ := hx
  subst hM
  simp only [List.mem_map] at hxM
  obtain ⟨f, hf, hxf⟩ := hxM
  subst hxf
  exact h p hp f hf

/-- C9 witness: with ordinary file paths the spawn phase returns an
outcome (no panic). -/
theorem upload_files_no_panic_witness :
    (∀ p ∈ [((⟨"pkg", "id1", none, none, none, none, false⟩ : ArtifactSet),
        ["dir/a.txt", "b.bin"])], ∀ f ∈ p.2, (file_name f).isSome = true) ∧
    (upload_files_spawn ⟨"api.example", "dl.example", [], "own", "src"⟩
      [(⟨"pkg", "id1", none, none, none, none, false⟩, ["dir/a.txt", "b.bin"])]).isSome
      = true :=
  ⟨by decide,
    upload_files_no_panic ⟨"api.example", "dl.example", [], "own", "src"⟩
      [(⟨"pkg", "id1", none, none, none, none, false⟩, ["dir/a.txt", "b.bin"])]
      (by decide)⟩

/-- C10 — `create_announcements` with an empty collection succeeds
without building a URL or spawning any task; with a non-empty collection
it spawns exactly one task whose URL is derived from the first release
alone (the other releases' `announce_url` overrides cannot influence it),
while the request body lists every release's `(package, tag)`. -/
theorem announcements_url_from_first_release (c : Gazenot) (a : AnnouncementKey)
    (r : Release) (rest rest' : List Release) :
    create_announcements_spawn c [] a = .ok [] ∧
    create_announcements_spawn c (r :: rest) a =
      .ok [(announce_desc c r,
        r.announce_url.getD
          ("https://" ++ c.api_server ++ "/" ++ c.source_host ++ "/" ++ c.owner ++
            "/announcements"),
        ⟨(r :: rest).map (fun x => ⟨x.package, x.tag⟩), a.body⟩)] ∧
    (create_announcements_spawn c (r :: rest) a).map (List.map (fun q => q.2.1)) =
      (create_announcements_spawn c (r :: rest') a).map (List.map (fun q => q.2.1)) := by
  refine ⟨rfl, rfl, rfl⟩
